import Mathlib

/-!
Shallow embedding of the paper-curation "Connected Papers" engine.

The definitions below are translated from the repository's TypeScript
sources:

* `RelatedPaperResult` — the frontend result record (`types/index.ts`).
* `buildGraphData` — the graph construction performed in the `useEffect`
  of `ConnectedPapersGraph.tsx` (circular layout, spoke and cross links),
  with the numeric constants inlined from `lib/constants.ts`
  (`GRAPH_LAYOUT.RADIUS_RATIO = 0.17`, `GRAPH_LINKS.SIMILARITY`).
  `Math.PI`, `Math.cos` and `Math.sin` are treated as opaque parameters
  (`piV`, `cosF`, `sinF`), since the builder only feeds them rational
  angle/radius values and never inspects their output.
* `getNodeSize` — the node-size function of `ConnectedPapersGraph.tsx`,
  over the reals, with `Math.log` modelled as `Real.log`.
* `handleConnectRequest` / `getRelatedPapersExternalQuery` — the request
  construction of `useConnectedPapers.handleConnect` and
  `papersApi.getRelatedPapersExternal`.
* `extractArxivId` / `buildPaperUrl` — the URL utilities.
* `getOrFetch` — the recommendation cache, modelled from the spec
  (its implementation is not among the provided sources).

JavaScript string truthiness (`undefined`, `null` and `""` are falsy) is
modelled by `truthyStr` on `Option String`; number-or-null fields are
`Option Int`.
-/

namespace PaperCuration

/-- Frontend record for one recommended paper (`interface RelatedPaperResult`). -/
structure RelatedPaperResult where
  title : String
  authors : List String
  abstract : Option String
  year : Option Int
  url : Option String
  cited_by : Int
  arxiv_id : Option String
  doi : Option String
deriving DecidableEq, Repr, Inhabited

/-- Node identifiers of the built graph: the code uses the string id
`center` for the source paper and the string `paper-i` for the i-th
recommended paper; the two disjoint shapes are modelled as constructors. -/
inductive NodeId where
  | center : NodeId
  | paper : Nat → NodeId
deriving DecidableEq, Repr

/-- Graph node (`interface Node` of `ConnectedPapersGraph.tsx`).
The code stores equal `x`/`fx` and `y`/`fy` (fixed positions). -/
structure Node where
  id : NodeId
  name : String
  year : Option Int
  citations : Int
  isCenter : Bool
  url : Option String
  authors : Option (List String)
  index : Option Nat
  x : ℚ
  y : ℚ
  fx : ℚ
  fy : ℚ
deriving DecidableEq, Repr

/-- Graph link (`interface Link`); `strength` is always set by the builder. -/
structure Link where
  source : NodeId
  target : NodeId
  strength : ℚ
deriving DecidableEq, Repr

/-- Graph data (`interface GraphData`). -/
structure GraphData where
  nodes : List Node
  links : List Link
deriving DecidableEq, Repr

/-- JavaScript truthiness of an optional string: `undefined`, `null` and
the empty string are falsy. -/
def truthyStr (o : Option String) : Bool := o.getD "" ≠ ""

/-- The string value of an optional string, `""` when absent. -/
def strVal (o : Option String) : String := o.getD ""

/-- Models `v || null` on a `number | null | undefined` value: `null`,
`undefined` and `0` collapse to `null`. -/
def intOrNull (o : Option Int) : Option Int :=
  match o with
  | some y => if y = 0 then none else some y
  | none => none

/-- Models `s || undefined` on a `string | null | undefined` value. -/
def strOrNone (o : Option String) : Option String :=
  if truthyStr o then o else none

/-- The center node pushed first by the builder: the source paper, fixed
at the canvas-local origin `(0, 0)`. -/
def centerNode (sourceTitle : String) (sourceYear : Option Int)
    (sourceCitations : Int) : Node :=
  { id := NodeId.center, name := sourceTitle, year := intOrNull sourceYear,
    citations := sourceCitations, isCenter := true, url := none,
    authors := none, index := none, x := 0, y := 0, fx := 0, fy := 0 }

/-- The node built for the paper at rank `index`: placed on the circle of
radius `baseRadius` at angle `(index / N) * 2π − π/2`, with `x`/`y` also
stored as the fixed coordinates `fx`/`fy`. -/
def paperNode (piV : ℚ) (cosF sinF : ℚ → ℚ) (baseRadius : ℚ)
    (connectedPapers : List RelatedPaperResult) (index : ℕ) : Node :=
  let paper := connectedPapers.getD index default
  let angle : ℚ :=
    ((index : ℚ) / (connectedPapers.length : ℚ)) * 2 * piV - piV / 2
  let x := baseRadius * cosF angle
  let y := baseRadius * sinF angle
  { id := NodeId.paper index, name := paper.title,
    year := intOrNull paper.year, citations := paper.cited_by,
    isCenter := false, url := strOrNone paper.url,
    authors := some paper.authors, index := some (index + 1),
    x := x, y := y, fx := x, fy := y }

/-- The spoke link from the center to the paper at rank `index`, with
rank-based strength `1 − index / N`. -/
def spokeLink (N : ℕ) (index : ℕ) : Link :=
  { source := NodeId.center, target := NodeId.paper index,
    strength := 1 - (index : ℚ) / (N : ℚ) }

/-- The cross-link condition between ranks `i` and `j`:
`citationDiff < MAX_CITATION_DIFF (150)` or
`yearDiff ≤ MAX_YEAR_DIFF (2)`, missing years read as `0`. -/
def crossCond (connectedPapers : List RelatedPaperResult) (i j : ℕ) : Prop :=
  |(connectedPapers.getD i default).cited_by -
      (connectedPapers.getD j default).cited_by| < 150 ∨
  |(connectedPapers.getD i default).year.getD 0 -
      (connectedPapers.getD j default).year.getD 0| ≤ 2

instance (connectedPapers : List RelatedPaperResult) (i j : ℕ) :
    Decidable (crossCond connectedPapers i j) := by
  unfold crossCond; infer_instance

/-- The cross link built for the rank pair `(i, j)`, with similarity
strength `((1 − min(citDiff/150, 1)) + (1 − min(yearDiff/5, 1))) / 2`. -/
def crossLink (connectedPapers : List RelatedPaperResult) (i j : ℕ) : Link :=
  let citationDiff : ℤ :=
    |(connectedPapers.getD i default).cited_by -
        (connectedPapers.getD j default).cited_by|
  let yearDiff : ℤ :=
    |(connectedPapers.getD i default).year.getD 0 -
        (connectedPapers.getD j default).year.getD 0|
  let citationSimilarity : ℚ := 1 - min ((citationDiff : ℚ) / 150) 1
  let yearSimilarity : ℚ := 1 - min ((yearDiff : ℚ) / 5) 1
  { source := NodeId.paper i, target := NodeId.paper j,
    strength := (citationSimilarity + yearSimilarity) / 2 }

/-- The inner cross-link loop body for rank `i`: `j` runs from `i + 1` to
`min(i + 3, N − 1)` inclusive, and a link is pushed when `crossCond`
holds. -/
def crossLinksAt (connectedPapers : List RelatedPaperResult) (i : ℕ) :
    List Link :=
  (List.range' (i + 1)
      (min (i + 3) (connectedPapers.length - 1) + 1 - (i + 1))).filterMap
    (fun j =>
      if crossCond connectedPapers i j then
        some (crossLink connectedPapers i j)
      else none)

/-- Graph construction of `ConnectedPapersGraph.tsx` (the `useEffect` body
building `nodes` and `links`): radius `min(width, height) * 0.17`
(`GRAPH_LAYOUT.RADIUS_RATIO`), the center node first, one node and one
spoke link per recommended paper in rank order, then the cross links. -/
def buildGraphData (piV : ℚ) (cosF sinF : ℚ → ℚ) (width height : ℚ)
    (sourceTitle : String) (sourceYear : Option Int) (sourceCitations : Int)
    (connectedPapers : List RelatedPaperResult) : GraphData :=
  let baseRadius : ℚ := min width height * (17 / 100)
  let N : ℕ := connectedPapers.length
  { nodes := centerNode sourceTitle sourceYear sourceCitations ::
      (List.range N).map (paperNode piV cosF sinF baseRadius connectedPapers),
    links := (List.range N).map (spokeLink N) ++
      (List.range N).flatMap (crossLinksAt connectedPapers) }

/-- Node size function of `ConnectedPapersGraph.tsx` (`getNodeSize`):
the center node has the fixed size `GRAPH_NODE.CENTER_SIZE = 10`; other
nodes get `MIN_SIZE + (log(citations+1) / log(MAX_CITATIONS_FOR_SCALE)) *
(MAX_SIZE - MIN_SIZE)` with `MIN_SIZE = 4`, `MAX_SIZE = 9`,
`MAX_CITATIONS_FOR_SCALE = 5000`; `Math.log` is the real logarithm. -/
noncomputable def getNodeSize (citations : ℤ) (isCenter : Bool) : ℝ :=
  if isCenter then 10
  else 4 + (Real.log ((citations : ℝ) + 1) / Real.log 5000) * (9 - 4)

/-- Argument record of `useConnectedPapers.handleConnect`
(`interface ConnectParams`). -/
structure ConnectParams where
  arxiv_id : Option String
  doi : Option String
  title : Option String
  year : Option Int
  citations : Option Int

/-- Argument record of `papersApi.getRelatedPapersExternal`. -/
structure RelatedExternalParams where
  arxiv_id : Option String
  doi : Option String
  title : Option String

/-- The request object `handleConnect` passes to
`papersApi.getRelatedPapersExternal`: identifiers are normalized with
`|| undefined`, and `title` is forwarded only when both `arxiv_id` and
`doi` are falsy. -/
def handleConnectRequest (params : ConnectParams) : RelatedExternalParams :=
  { arxiv_id := strOrNone params.arxiv_id,
    doi := strOrNone params.doi,
    title :=
      if ¬truthyStr params.arxiv_id ∧ ¬truthyStr params.doi then params.title
      else none }

/-- The `URLSearchParams` pairs built by `papersApi.getRelatedPapersExternal`:
each of `arxiv_id`, `doi`, `title` is set only when truthy. -/
def getRelatedPapersExternalQuery (params : RelatedExternalParams) :
    List (String × String) :=
  (if truthyStr params.arxiv_id then [("arxiv_id", strVal params.arxiv_id)]
   else []) ++
  (if truthyStr params.doi then [("doi", strVal params.doi)] else []) ++
  (if truthyStr params.title then [("title", strVal params.title)] else [])

/-- The query ultimately sent for one connect action: `handleConnect`
composed with `getRelatedPapersExternal`. -/
def handleConnectQuery (params : ConnectParams) : List (String × String) :=
  getRelatedPapersExternalQuery (handleConnectRequest params)

/-- Character class `[\d.]` of the arXiv-id regex in `extractArxivId`. -/
def isIdChar (c : Char) : Bool := c.isDigit || c == '.'

/-- Anchored pattern match: strips the given literal pattern from the
front of the character list, returning the remainder on success. -/
def stripLead : List Char → List Char → Option (List Char)
  | [], l => some l
  | _ :: _, [] => none
  | p :: ps, c :: cs => if p = c then stripLead ps cs else none

/-- The `arxiv.org/abs/` branch of the regex
`arxiv\.org\/(?:abs|pdf)\/([\d.]+)`. -/
def arxivAbsPat : List Char := "arxiv.org/abs/".data

/-- The `arxiv.org/pdf/` branch of the same regex. -/
def arxivPdfPat : List Char := "arxiv.org/pdf/".data

/-- One anchored attempt of the regex `arxiv\.org\/(?:abs|pdf)\/([\d.]+)`
at the head of the list: the literal part must match (trying `abs` before
`pdf`, as regex alternation does), and the capture group is the maximal
non-empty run of `[\d.]` characters that follows. -/
def arxivMatchAt (l : List Char) : Option (List Char) :=
  let rest? : Option (List Char) :=
    match stripLead arxivAbsPat l with
    | some r => some r
    | none => stripLead arxivPdfPat l
  match rest? with
  | some r =>
    let g := r.takeWhile isIdChar
    if g.isEmpty then none else some g
  | none => none

/-- Left-to-right regex scan of `String.prototype.match`: the first
position where the pattern matches wins. -/
def arxivScan : List Char → Option (List Char)
  | [] => none
  | c :: rest =>
    match arxivMatchAt (c :: rest) with
    | some g => some g
    | none => arxivScan rest

/-- `extractArxivId` of the URL utilities: `null` for a falsy url,
otherwise the capture group of the first match of
`arxiv\.org\/(?:abs|pdf)\/([\d.]+)`. -/
def extractArxivId (url : String) : Option String :=
  if url = "" then none
  else (arxivScan url.data).map fun g => String.mk g

/-- `extractArxivId` applied to a `string | undefined` value, as in
`extractArxivId(buildPaperUrl(...))`: an absent url is falsy and
yields `null`. -/
def extractArxivIdOpt (o : Option String) : Option String :=
  match o with
  | some u => extractArxivId u
  | none => none

/-- Argument record of `buildPaperUrl`. -/
structure PaperUrlParams where
  url : Option String
  arxiv_id : Option String
  doi : Option String

/-- `buildPaperUrl` of the URL utilities: prefers an explicit url, then
an arXiv abs url, then a DOI url, else `undefined`. -/
def buildPaperUrl (params : PaperUrlParams) : Option String :=
  if truthyStr params.url then some (strVal params.url)
  else if truthyStr params.arxiv_id then
    some ("https://arxiv.org/abs/" ++ strVal params.arxiv_id)
  else if truthyStr params.doi then
    some ("https://doi.org/" ++ strVal params.doi)
  else none

/-- Modelled from the spec: a stored entry of the RecommendationCache
(§3 `CacheEntry`); the cache implementation (`cache_service.py`) is not
among the provided sources. -/
structure CacheEntry where
  key : String
  limit : ℕ
  value : List RelatedPaperResult
  expiresAt : ℕ
deriving DecidableEq, Repr

/-- Modelled from the spec: the cache's store of entries. -/
abbrev CacheState := List CacheEntry

/-- Modelled from the spec: the default TTL of one hour (§4.2), in
seconds. -/
def CACHE_TTL : ℕ := 3600

/-- Modelled from the spec: lazy-expiry lookup — an entry is a hit only
when both `key` and `limit` match exactly and it is not yet past
`expiresAt` (§4.2). -/
def cacheLookup (now : ℕ) (st : CacheState) (key : String) (limit : ℕ) :
    Option (List RelatedPaperResult) :=
  match st.find? (fun e =>
      e.key == key && e.limit == limit && decide (now < e.expiresAt)) with
  | some e => some e.value
  | none => none

/-- Result of one `getOrFetch` call: the returned list, the cache state
afterwards, and how many times the fetcher was invoked by this call. -/
structure FetchResult where
  value : List RelatedPaperResult
  state : CacheState
  fetchCount : ℕ
deriving Repr

/-- Modelled from the spec: `getOrFetch(key, limit, fetcher)` (§4.2) — a
hit returns the stored value without fetching; a miss invokes the fetcher
once and stores the result with `expiresAt = now + TTL`. -/
def getOrFetch (fetcher : String → ℕ → List RelatedPaperResult)
    (now : ℕ) (key : String) (limit : ℕ) (st : CacheState) : FetchResult :=
  match cacheLookup now st key limit with
  | some v => ⟨v, st, 0⟩
  | none =>
    let v := fetcher key limit
    ⟨v, ⟨key, limit, v, now + CACHE_TTL⟩ :: st, 1⟩

section BuilderLemmas

@[simp]
theorem paperNode_isCenter (piV : ℚ) (cosF sinF : ℚ → ℚ) (r : ℚ)
    (papers : List RelatedPaperResult) (i : ℕ) :
    (paperNode piV cosF sinF r papers i).isCenter = false := rfl

@[simp]
theorem paperNode_id (piV : ℚ) (cosF sinF : ℚ → ℚ) (r : ℚ)
    (papers : List RelatedPaperResult) (i : ℕ) :
    (paperNode piV cosF sinF r papers i).id = NodeId.paper i := rfl

@[simp]
theorem spokeLink_source (N i : ℕ) :
    (spokeLink N i).source = NodeId.center := rfl

@[simp]
theorem spokeLink_target (N i : ℕ) :
    (spokeLink N i).target = NodeId.paper i := rfl

@[simp]
theorem spokeLink_strength (N i : ℕ) :
    (spokeLink N i).strength = 1 - (i : ℚ) / (N : ℚ) := rfl

@[simp]
theorem crossLink_source (papers : List RelatedPaperResult) (i j : ℕ) :
    (crossLink papers i j).source = NodeId.paper i := rfl

@[simp]
theorem crossLink_target (papers : List RelatedPaperResult) (i j : ℕ) :
    (crossLink papers i j).target = NodeId.paper j := rfl

theorem crossLink_strength (papers : List RelatedPaperResult) (i j : ℕ) :
    (crossLink papers i j).strength =
      ((1 - min (((|(papers.getD i default).cited_by -
          (papers.getD j default).cited_by| : ℤ) : ℚ) / 150) 1) +
       (1 - min (((|(papers.getD i default).year.getD 0 -
          (papers.getD j default).year.getD 0| : ℤ) : ℚ) / 5) 1)) / 2 := rfl

/-- Membership in the cross-link loop output for a fixed rank `i`. -/
theorem mem_crossLinksAt {papers : List RelatedPaperResult} {i : ℕ}
    {l : Link} :
    l ∈ crossLinksAt papers i ↔
      ∃ j, i < j ∧ j ≤ min (i + 3) (papers.length - 1) ∧
        crossCond papers i j ∧ l = crossLink papers i j := by
  unfold crossLinksAt
  simp only [List.mem_filterMap, List.mem_range'_1]
  constructor
  · rintro ⟨j, ⟨h1, h2⟩, hif⟩
    by_cases hc : crossCond papers i j
    · rw [if_pos hc] at hif
      exact ⟨j, by omega, by omega, hc, (Option.some_inj.mp hif).symm⟩
    · rw [if_neg hc] at hif
      cases hif
  · rintro ⟨j, h1, h2, hc, rfl⟩
    exact ⟨j, ⟨by omega, by omega⟩, if_pos hc⟩

/-- Membership in the link list of the built graph: a link is either a
spoke for some rank below `N`, or a cross link for a windowed rank pair
satisfying the similarity condition. -/
theorem mem_buildGraphData_links (piV : ℚ) (cosF sinF : ℚ → ℚ)
    (width height : ℚ) (sourceTitle : String) (sourceYear : Option Int)
    (sourceCitations : Int) (papers : List RelatedPaperResult) {l : Link} :
    l ∈ (buildGraphData piV cosF sinF width height sourceTitle sourceYear
        sourceCitations papers).links ↔
      (∃ i < papers.length, l = spokeLink papers.length i) ∨
      (∃ i, ∃ j, i < j ∧ j ≤ min (i + 3) (papers.length - 1) ∧
        crossCond papers i j ∧ l = crossLink papers i j) := by
  unfold buildGraphData
  simp only [List.mem_append, List.mem_map, List.mem_range, List.mem_flatMap,
    mem_crossLinksAt]
  constructor
  · rintro (⟨i, hi, rfl⟩ | ⟨i, hi, j, hj1, hj2, hc, rfl⟩)
    · exact Or.inl ⟨i, hi, rfl⟩
    · exact Or.inr ⟨i, j, hj1, hj2, hc, rfl⟩
  · rintro (⟨i, hi, rfl⟩ | ⟨i, j, hj1, hj2, hc, rfl⟩)
    · exact Or.inl ⟨i, hi, rfl⟩
    · exact Or.inr ⟨i, by omega, j, hj1, hj2, hc, rfl⟩

end BuilderLemmas

/-- C2: for a list of `N ≥ 1` recommended papers and any canvas size, the
built graph has the center node at the origin `(0, 0)` and recommended
node `i` (0-indexed, stored at list position `i + 1`) at position
`(R·cos θ_i, R·sin θ_i)` with `R = min(width, height) * 0.17` and
`θ_i = (i / N) * 2π − π/2`. -/
theorem build_layout_positions (piV : ℚ) (cosF sinF : ℚ → ℚ)
    (width height : ℚ) (sourceTitle : String) (sourceYear : Option Int)
    (sourceCitations : Int) (papers : List RelatedPaperResult) (i : ℕ)
    (hi : i < papers.length) :
    ((buildGraphData piV cosF sinF width height sourceTitle sourceYear
        sourceCitations papers).nodes[0]?.map (fun n => (n.x, n.y)) =
      some (0, 0)) ∧
    ((buildGraphData piV cosF sinF width height sourceTitle sourceYear
        sourceCitations papers).nodes[i + 1]?.map (fun n => (n.x, n.y)) =
      some
        (min width height * (17 / 100) *
          cosF (((i : ℚ) / (papers.length : ℚ)) * 2 * piV - piV / 2),
         min width height * (17 / 100) *
          sinF (((i : ℚ) / (papers.length : ℚ)) * 2 * piV - piV / 2))) := by
  constructor
  · unfold buildGraphData
    simp [centerNode]
  · unfold buildGraphData
    simp only [List.getElem?_cons_succ, List.getElem?_map,
      List.getElem?_range hi, Option.map_some]
    rfl

/-- Closed witness for `build_layout_positions` at a concrete one-paper
list, canvas `100 × 200` and sample trigonometric parameters. -/
theorem build_layout_positions_witness :
    ((buildGraphData 3 (fun q => q) (fun q => q + 1) 100 200 "s" none 0
        [⟨"t", [], none, some 2020, none, 5, none, none⟩]).nodes[0]?.map
          (fun n => (n.x, n.y)) = some (0, 0)) ∧
    ((buildGraphData 3 (fun q => q) (fun q => q + 1) 100 200 "s" none 0
        [⟨"t", [], none, some 2020, none, 5, none, none⟩]).nodes[0 + 1]?.map
          (fun n => (n.x, n.y)) =
      some
        (min (100 : ℚ) 200 * (17 / 100) *
          (((0 : ℕ) : ℚ) /
            (([⟨"t", [], none, some 2020, none, 5, none, none⟩] :
              List RelatedPaperResult).length : ℚ) * 2 * 3 - 3 / 2),
         min (100 : ℚ) 200 * (17 / 100) *
          (((0 : ℕ) : ℚ) /
            (([⟨"t", [], none, some 2020, none, 5, none, none⟩] :
              List RelatedPaperResult).length : ℚ) * 2 * 3 - 3 / 2 + 1))) :=
  build_layout_positions 3 (fun q => q) (fun q => q + 1) 100 200 "s" none 0
    [⟨"t", [], none, some 2020, none, 5, none, none⟩] 0 (by decide)

section SpokeLemmas

/-- The spoke link of every rank below `N` is in the built link list. -/
theorem spokeLink_mem_links (piV : ℚ) (cosF sinF : ℚ → ℚ)
    (width height : ℚ) (sourceTitle : String) (sourceYear : Option Int)
    (sourceCitations : Int) (papers : List RelatedPaperResult) {i : ℕ}
    (hi : i < papers.length) :
    spokeLink papers.length i ∈
      (buildGraphData piV cosF sinF width height sourceTitle sourceYear
        sourceCitations papers).links :=
  (mem_buildGraphData_links piV cosF sinF width height sourceTitle
    sourceYear sourceCitations papers).mpr (Or.inl ⟨i, hi, rfl⟩)

/-- Every link whose source is the center node is a spoke link. -/
theorem eq_spokeLink_of_source_center (piV : ℚ) (cosF sinF : ℚ → ℚ)
    (width height : ℚ) (sourceTitle : String) (sourceYear : Option Int)
    (sourceCitations : Int) (papers : List RelatedPaperResult) {l : Link}
    (hl : l ∈ (buildGraphData piV cosF sinF width height sourceTitle
      sourceYear sourceCitations papers).links)
    (hs : l.source = NodeId.center) :
    ∃ i < papers.length, l = spokeLink papers.length i := by
  rcases (mem_buildGraphData_links piV cosF sinF width height sourceTitle
      sourceYear sourceCitations papers).mp hl with
    h | ⟨a, b, _, _, _, rfl⟩
  · exact h
  · rw [crossLink_source] at hs
    cases hs

/-- The center-to-`paper i` link is unique and carries the rank-based
strength. -/
theorem strength_of_center_link (piV : ℚ) (cosF sinF : ℚ → ℚ)
    (width height : ℚ) (sourceTitle : String) (sourceYear : Option Int)
    (sourceCitations : Int) (papers : List RelatedPaperResult) {l : Link}
    {i : ℕ}
    (hl : l ∈ (buildGraphData piV cosF sinF width height sourceTitle
      sourceYear sourceCitations papers).links)
    (hs : l.source = NodeId.center) (ht : l.target = NodeId.paper i) :
    l.strength = 1 - (i : ℚ) / (papers.length : ℚ) := by
  obtain ⟨k, _, rfl⟩ := eq_spokeLink_of_source_center piV cosF sinF width
    height sourceTitle sourceYear sourceCitations papers hl hs
  rw [spokeLink_target] at ht
  cases ht
  rw [spokeLink_strength]

/-- Counting the single occurrence of `k` in `range N`. -/
theorem countP_range_eq_one {N k : ℕ} (hk : k < N) :
    List.countP (fun i => decide (i = k)) (List.range N) = 1 := by
  induction N with
  | zero => omega
  | succ n ih =>
    rw [List.range_succ, List.countP_append]
    by_cases h : k < n
    · rw [ih h]
      have hne : ¬(n = k) := by omega
      simp [List.countP_cons, hne]
    · have hkn : k = n := by omega
      subst hkn
      have h0 : List.countP (fun i => decide (i = k)) (List.range k) = 0 :=
        List.countP_eq_zero.mpr (fun a ha => by
          simp only [List.mem_range] at ha
          simp [Nat.ne_of_lt ha])
      rw [h0]
      simp [List.countP_cons]

end SpokeLemmas

/-- C4: for every recommended-paper list and every rank `i < N`, the
spoke edge from the center to node `i` exists, every center-to-node-`i`
link has strength exactly `1 − i/N`, that strength is positive (never 0),
and rank 0 gets strength `1`. -/
theorem build_spoke_strength (piV : ℚ) (cosF sinF : ℚ → ℚ)
    (width height : ℚ) (sourceTitle : String) (sourceYear : Option Int)
    (sourceCitations : Int) (papers : List RelatedPaperResult) (i : ℕ)
    (hi : i < papers.length) :
    (∃ l ∈ (buildGraphData piV cosF sinF width height sourceTitle
        sourceYear sourceCitations papers).links,
      l.source = NodeId.center ∧ l.target = NodeId.paper i ∧
      l.strength = 1 - (i : ℚ) / (papers.length : ℚ)) ∧
    (∀ l ∈ (buildGraphData piV cosF sinF width height sourceTitle
        sourceYear sourceCitations papers).links,
      l.source = NodeId.center → l.target = NodeId.paper i →
      l.strength = 1 - (i : ℚ) / (papers.length : ℚ)) ∧
    0 < 1 - (i : ℚ) / (papers.length : ℚ) ∧
    1 - ((0 : ℕ) : ℚ) / (papers.length : ℚ) = 1 := by
  refine ⟨⟨spokeLink papers.length i,
      spokeLink_mem_links piV cosF sinF width height sourceTitle sourceYear
        sourceCitations papers hi, rfl, rfl, rfl⟩,
    fun l hl hs ht => strength_of_center_link piV cosF sinF width height
      sourceTitle sourceYear sourceCitations papers hl hs ht, ?_, by simp⟩
  have hN : (0 : ℚ) < (papers.length : ℚ) := by
    exact_mod_cast Nat.pos_of_ne_zero (by omega)
  have h1 : (i : ℚ) / (papers.length : ℚ) < 1 :=
    (div_lt_one hN).mpr (by exact_mod_cast hi)
  linarith

/-- Closed witness for `build_spoke_strength` at a concrete two-paper
list and rank 1: the spoke to node 1 has strength `1 − 1/2`. -/
theorem build_spoke_strength_witness :
    ∃ l ∈ (buildGraphData 0 (fun _ => 0) (fun _ => 0) 500 450 "s" none 0
        [⟨"a", [], none, none, none, 3, none, none⟩,
         ⟨"b", [], none, none, none, 7, none, none⟩]).links,
      l.source = NodeId.center ∧ l.target = NodeId.paper 1 ∧
      l.strength = 1 - ((1 : ℕ) : ℚ) /
        (([⟨"a", [], none, none, none, 3, none, none⟩,
           ⟨"b", [], none, none, none, 7, none, none⟩] :
          List RelatedPaperResult).length : ℚ) :=
  (build_spoke_strength 0 (fun _ => 0) (fun _ => 0) 500 450 "s" none 0
    [⟨"a", [], none, none, none, 3, none, none⟩,
     ⟨"b", [], none, none, none, 7, none, none⟩] 1 (by decide)).1

/-- C5 (counterexample): for a concrete list of `N = 10` papers, no
center link to the last rank (rank 9) has strength `0.9` — the code gives
it strength `1 − 9/10 = 0.1`. -/
theorem build_spoke_strength_rank9_cex :
    (¬ ∃ l ∈ (buildGraphData 0 (fun _ => 0) (fun _ => 0) 500 450 "s" none 0
        (List.replicate 10 ⟨"t", [], none, none, none, 0, none, none⟩)).links,
      l.source = NodeId.center ∧ l.target = NodeId.paper 9 ∧
      l.strength = 9 / 10) ∧
    (∃ l ∈ (buildGraphData 0 (fun _ => 0) (fun _ => 0) 500 450 "s" none 0
        (List.replicate 10 ⟨"t", [], none, none, none, 0, none, none⟩)).links,
      l.source = NodeId.center ∧ l.target = NodeId.paper 9 ∧
      l.strength = 1 / 10) := by
  constructor
  · rintro ⟨l, hl, hs, ht, hstr⟩
    rw [strength_of_center_link 0 (fun _ => 0) (fun _ => 0) 500 450 "s"
      none 0 _ hl hs ht] at hstr
    rw [List.length_replicate] at hstr
    norm_num at hstr
  · refine ⟨spokeLink (List.replicate 10
        (⟨"t", [], none, none, none, 0, none, none⟩ :
          RelatedPaperResult)).length 9,
      spokeLink_mem_links 0 (fun _ => 0) (fun _ => 0) 500 450 "s" none 0 _
        (by simp), rfl, rfl, ?_⟩
    rw [spokeLink_strength, List.length_replicate]
    norm_num

/-- C5 (amended): for every recommended-paper list of exactly `N = 10`
papers, the spoke strength for rank 0 is `1.0` and the spoke strength for
the last rank (rank 9) is `0.1`. -/
theorem build_spoke_strength_extremes (piV : ℚ) (cosF sinF : ℚ → ℚ)
    (width height : ℚ) (sourceTitle : String) (sourceYear : Option Int)
    (sourceCitations : Int) (papers : List RelatedPaperResult)
    (h10 : papers.length = 10) :
    (∃ l ∈ (buildGraphData piV cosF sinF width height sourceTitle
        sourceYear sourceCitations papers).links,
      l.source = NodeId.center ∧ l.target = NodeId.paper 0 ∧
      l.strength = 1) ∧
    (∀ l ∈ (buildGraphData piV cosF sinF width height sourceTitle
        sourceYear sourceCitations papers).links,
      l.source = NodeId.center → l.target = NodeId.paper 0 →
      l.strength = 1) ∧
    (∃ l ∈ (buildGraphData piV cosF sinF width height sourceTitle
        sourceYear sourceCitations papers).links,
      l.source = NodeId.center ∧ l.target = NodeId.paper 9 ∧
      l.strength = 1 / 10) ∧
    (∀ l ∈ (buildGraphData piV cosF sinF width height sourceTitle
        sourceYear sourceCitations papers).links,
      l.source = NodeId.center → l.target = NodeId.paper 9 →
      l.strength = 1 / 10) := by
  have h0 : (1 : ℚ) - ((0 : ℕ) : ℚ) / (papers.length : ℚ) = 1 := by simp
  have h9 : (1 : ℚ) - ((9 : ℕ) : ℚ) / (papers.length : ℚ) = 1 / 10 := by
    rw [h10]
    norm_num
  refine ⟨⟨spokeLink papers.length 0,
      spokeLink_mem_links piV cosF sinF width height sourceTitle sourceYear
        sourceCitations papers (by omega), rfl, rfl, ?_⟩,
    fun l hl hs ht => ?_,
    ⟨spokeLink papers.length 9,
      spokeLink_mem_links piV cosF sinF width height sourceTitle sourceYear
        sourceCitations papers (by omega), rfl, rfl, ?_⟩,
    fun l hl hs ht => ?_⟩
  · rw [spokeLink_strength]
    exact h0
  · rw [strength_of_center_link piV cosF sinF width height sourceTitle
      sourceYear sourceCitations papers hl hs ht]
    exact h0
  · rw [spokeLink_strength]
    exact h9
  · rw [strength_of_center_link piV cosF sinF width height sourceTitle
      sourceYear sourceCitations papers hl hs ht]
    exact h9

/-- Closed witness for `build_spoke_strength_extremes` on a concrete
10-paper list: rank 0 gets strength `1` and rank 9 gets strength `1/10`. -/
theorem build_spoke_strength_extremes_witness :
    (∃ l ∈ (buildGraphData 0 (fun _ => 0) (fun _ => 0) 500 450 "s" none 0
        (List.replicate 10 ⟨"u", [], none, none, none, 1, none, none⟩)).links,
      l.source = NodeId.center ∧ l.target = NodeId.paper 0 ∧
      l.strength = 1) ∧
    (∃ l ∈ (buildGraphData 0 (fun _ => 0) (fun _ => 0) 500 450 "s" none 0
        (List.replicate 10 ⟨"u", [], none, none, none, 1, none, none⟩)).links,
      l.source = NodeId.center ∧ l.target = NodeId.paper 9 ∧
      l.strength = 1 / 10) := by
  have h := build_spoke_strength_extremes 0 (fun _ => 0) (fun _ => 0) 500 450
    "s" none 0 (List.replicate 10 ⟨"u", [], none, none, none, 1, none, none⟩)
    (by decide)
  exact ⟨h.1, h.2.2.1⟩

/-- C1: within the rank window `i < j ≤ min(i+3, N−1)`, a cross link from
node `i` to node `j` is created exactly when
`|citations_i − citations_j| < 150` or `|year_i − year_j| ≤ 2` (missing
year read as 0), and every such link carries strength
`((1 − min(citationDiff/150, 1)) + (1 − min(yearDiff/5, 1))) / 2`. -/
theorem build_cross_links (piV : ℚ) (cosF sinF : ℚ → ℚ)
    (width height : ℚ) (sourceTitle : String) (sourceYear : Option Int)
    (sourceCitations : Int) (papers : List RelatedPaperResult) (i j : ℕ)
    (hij : i < j) (hj : j ≤ min (i + 3) (papers.length - 1)) :
    ((∃ l ∈ (buildGraphData piV cosF sinF width height sourceTitle
        sourceYear sourceCitations papers).links,
      l.source = NodeId.paper i ∧ l.target = NodeId.paper j) ↔
      (|(papers.getD i default).cited_by -
          (papers.getD j default).cited_by| < 150 ∨
       |(papers.getD i default).year.getD 0 -
          (papers.getD j default).year.getD 0| ≤ 2)) ∧
    (∀ l ∈ (buildGraphData piV cosF sinF width height sourceTitle
        sourceYear sourceCitations papers).links,
      l.source = NodeId.paper i → l.target = NodeId.paper j →
      l.strength =
        ((1 - min (((|(papers.getD i default).cited_by -
            (papers.getD j default).cited_by| : ℤ) : ℚ) / 150) 1) +
         (1 - min (((|(papers.getD i default).year.getD 0 -
            (papers.getD j default).year.getD 0| : ℤ) : ℚ) / 5) 1)) / 2) := by
  constructor
  · constructor
    · rintro ⟨l, hl, hs, ht⟩
      rcases (mem_buildGraphData_links piV cosF sinF width height
          sourceTitle sourceYear sourceCitations papers).mp hl with
        ⟨k, _, rfl⟩ | ⟨a, b, _, _, hc, rfl⟩
      · rw [spokeLink_source] at hs
        cases hs
      · rw [crossLink_source] at hs
        rw [crossLink_target] at ht
        cases hs
        cases ht
        exact hc
    · intro hcond
      exact ⟨crossLink papers i j,
        (mem_buildGraphData_links piV cosF sinF width height sourceTitle
          sourceYear sourceCitations papers).mpr
            (Or.inr ⟨i, j, hij, hj, hcond, rfl⟩), rfl, rfl⟩
  · intro l hl hs ht
    rcases (mem_buildGraphData_links piV cosF sinF width height sourceTitle
        sourceYear sourceCitations papers).mp hl with
      ⟨k, _, rfl⟩ | ⟨a, b, _, _, _, rfl⟩
    · rw [spokeLink_source] at hs
      cases hs
    · rw [crossLink_source] at hs
      rw [crossLink_target] at ht
      cases hs
      cases ht
      exact crossLink_strength papers _ _

/-- Closed witness for `build_cross_links`: two papers with
`citationDiff = 149` (window `i = 0`, `j = 1`) do get a cross link, whose
strength evaluates to `((1 − 149/150) + (1 − 0/5)) / 2`. -/
theorem build_cross_links_witness :
    (∃ l ∈ (buildGraphData 0 (fun _ => 0) (fun _ => 0) 500 450 "s" none 0
        [⟨"a", [], none, some 2020, none, 0, none, none⟩,
         ⟨"b", [], none, some 2020, none, 149, none, none⟩]).links,
      l.source = NodeId.paper 0 ∧ l.target = NodeId.paper 1 ∧
      l.strength = ((1 - 149 / 150) + (1 - 0 / 5)) / 2) := by
  have h := build_cross_links 0 (fun _ => 0) (fun _ => 0) 500 450 "s" none 0
    [⟨"a", [], none, some 2020, none, 0, none, none⟩,
     ⟨"b", [], none, some 2020, none, 149, none, none⟩] 0 1 (by decide)
    (by decide)
  obtain ⟨l, hl, hs, ht⟩ := h.1.mpr (by decide)
  exact ⟨l, hl, hs, ht, by
    rw [h.2 l hl hs ht]
    norm_num⟩

/-- Every strength produced by the builder lies in `[0, 1]`. -/
theorem strength_mem_unit (piV : ℚ) (cosF sinF : ℚ → ℚ)
    (width height : ℚ) (sourceTitle : String) (sourceYear : Option Int)
    (sourceCitations : Int) (papers : List RelatedPaperResult) {l : Link}
    (hl : l ∈ (buildGraphData piV cosF sinF width height sourceTitle
      sourceYear sourceCitations papers).links) :
    0 ≤ l.strength ∧ l.strength ≤ 1 := by
  rcases (mem_buildGraphData_links piV cosF sinF width height sourceTitle
      sourceYear sourceCitations papers).mp hl with
    ⟨i, hi, rfl⟩ | ⟨i, j, _, _, _, rfl⟩
  · rw [spokeLink_strength]
    have hN : (0 : ℚ) < (papers.length : ℚ) := by
      exact_mod_cast Nat.pos_of_ne_zero (by omega)
    have h1 : (i : ℚ) / (papers.length : ℚ) < 1 :=
      (div_lt_one hN).mpr (by exact_mod_cast hi)
    have h2 : (0 : ℚ) ≤ (i : ℚ) / (papers.length : ℚ) := by positivity
    constructor <;> linarith
  · rw [crossLink_strength]
    have hc0 : (0 : ℚ) ≤ ((|(papers.getD i default).cited_by -
        (papers.getD j default).cited_by| : ℤ) : ℚ) := by
      exact_mod_cast abs_nonneg _
    have hy0 : (0 : ℚ) ≤ ((|(papers.getD i default).year.getD 0 -
        (papers.getD j default).year.getD 0| : ℤ) : ℚ) := by
      exact_mod_cast abs_nonneg _
    have hcMin : (0 : ℚ) ≤ min (((|(papers.getD i default).cited_by -
        (papers.getD j default).cited_by| : ℤ) : ℚ) / 150) 1 :=
      le_min (by positivity) (by norm_num)
    have hyMin : (0 : ℚ) ≤ min (((|(papers.getD i default).year.getD 0 -
        (papers.getD j default).year.getD 0| : ℤ) : ℚ) / 5) 1 :=
      le_min (by positivity) (by norm_num)
    have hcMax := min_le_right (((|(papers.getD i default).cited_by -
        (papers.getD j default).cited_by| : ℤ) : ℚ) / 150) 1
    have hyMax := min_le_right (((|(papers.getD i default).year.getD 0 -
        (papers.getD j default).year.getD 0| : ℤ) : ℚ) / 5) 1
    constructor <;> linarith

/-- C3: the built graph has exactly one center node, `1 + N` nodes in
total, exactly one spoke link (source `center`) per non-center node,
every link targets a non-center id and is either a spoke from the center
or connects two paper ids, and every strength lies in `[0, 1]`. -/
theorem build_graph_invariants (piV : ℚ) (cosF sinF : ℚ → ℚ)
    (width height : ℚ) (sourceTitle : String) (sourceYear : Option Int)
    (sourceCitations : Int) (papers : List RelatedPaperResult) :
    (((buildGraphData piV cosF sinF width height sourceTitle sourceYear
        sourceCitations papers).nodes.filter
          (fun n => n.isCenter)).length = 1) ∧
    ((buildGraphData piV cosF sinF width height sourceTitle sourceYear
        sourceCitations papers).nodes.length = 1 + papers.length) ∧
    (∀ n ∈ (buildGraphData piV cosF sinF width height sourceTitle
        sourceYear sourceCitations papers).nodes, n.isCenter = false →
      ((buildGraphData piV cosF sinF width height sourceTitle sourceYear
          sourceCitations papers).links.filter
        (fun l => decide (l.source = NodeId.center ∧
          l.target = n.id))).length = 1) ∧
    (∀ l ∈ (buildGraphData piV cosF sinF width height sourceTitle
        sourceYear sourceCitations papers).links,
      l.source = NodeId.center ∨
        ∃ a b, l.source = NodeId.paper a ∧ l.target = NodeId.paper b) ∧
    (∀ l ∈ (buildGraphData piV cosF sinF width height sourceTitle
        sourceYear sourceCitations papers).links,
      l.target ≠ NodeId.center) ∧
    (∀ l ∈ (buildGraphData piV cosF sinF width height sourceTitle
        sourceYear sourceCitations papers).links,
      0 ≤ l.strength ∧ l.strength ≤ 1) := by
  refine ⟨?_, ?_, ?_, ?_, ?_, fun l hl => strength_mem_unit piV cosF sinF
    width height sourceTitle sourceYear sourceCitations papers hl⟩
  · unfold buildGraphData
    simp only [List.filter_cons, List.filter_map, Function.comp_def,
      paperNode_isCenter, List.filter_false, List.map_nil]
    simp [centerNode]
  · unfold buildGraphData
    simp only [List.length_cons, List.length_map, List.length_range]
    omega
  · intro n hn hnc
    unfold buildGraphData at hn
    simp only [List.mem_cons, List.mem_map, List.mem_range] at hn
    rcases hn with rfl | ⟨k, hk, rfl⟩
    · exact Bool.noConfusion hnc
    · rw [paperNode_id, ← List.countP_eq_length_filter]
      unfold buildGraphData
      rw [List.countP_append, List.countP_map]
      have hcross : List.countP
          (fun l => decide (l.source = NodeId.center ∧
            l.target = NodeId.paper k))
          ((List.range papers.length).flatMap (crossLinksAt papers)) = 0 := by
        refine List.countP_eq_zero.mpr (fun l hl => ?_)
        rw [List.mem_flatMap] at hl
        obtain ⟨i, _, hli⟩ := hl
        obtain ⟨j, _, _, _, rfl⟩ := mem_crossLinksAt.mp hli
        simp
      rw [hcross]
      simp only [Function.comp_def, spokeLink_source, spokeLink_target,
        NodeId.paper.injEq, true_and]
      rw [countP_range_eq_one hk]
  · intro l hl
    rcases (mem_buildGraphData_links piV cosF sinF width height sourceTitle
        sourceYear sourceCitations papers).mp hl with
      ⟨i, _, rfl⟩ | ⟨i, j, _, _, _, rfl⟩
    · exact Or.inl rfl
    · exact Or.inr ⟨i, j, rfl, rfl⟩
  · intro l hl
    rcases (mem_buildGraphData_links piV cosF sinF width height sourceTitle
        sourceYear sourceCitations papers).mp hl with
      ⟨i, _, rfl⟩ | ⟨i, j, _, _, _, rfl⟩
    · rw [spokeLink_target]
      exact fun h => by cases h
    · rw [crossLink_target]
      exact fun h => by cases h

/-- C8: the graph construction is deterministic — two invocations with
identical inputs (including the trigonometric environment and canvas
size) produce identical node lists (hence positions) and link lists
(hence strengths). -/
theorem buildGraphData_deterministic (piV₁ piV₂ : ℚ)
    (cosF₁ cosF₂ sinF₁ sinF₂ : ℚ → ℚ) (width₁ width₂ height₁ height₂ : ℚ)
    (sourceTitle₁ sourceTitle₂ : String) (sourceYear₁ sourceYear₂ : Option Int)
    (sourceCitations₁ sourceCitations₂ : Int)
    (papers₁ papers₂ : List RelatedPaperResult)
    (h1 : piV₁ = piV₂) (h2 : cosF₁ = cosF₂) (h3 : sinF₁ = sinF₂)
    (h4 : width₁ = width₂) (h5 : height₁ = height₂)
    (h6 : sourceTitle₁ = sourceTitle₂) (h7 : sourceYear₁ = sourceYear₂)
    (h8 : sourceCitations₁ = sourceCitations₂) (h9 : papers₁ = papers₂) :
    ((buildGraphData piV₁ cosF₁ sinF₁ width₁ height₁ sourceTitle₁
        sourceYear₁ sourceCitations₁ papers₁).nodes =
      (buildGraphData piV₂ cosF₂ sinF₂ width₂ height₂ sourceTitle₂
        sourceYear₂ sourceCitations₂ papers₂).nodes) ∧
    ((buildGraphData piV₁ cosF₁ sinF₁ width₁ height₁ sourceTitle₁
        sourceYear₁ sourceCitations₁ papers₁).links =
      (buildGraphData piV₂ cosF₂ sinF₂ width₂ height₂ sourceTitle₂
        sourceYear₂ sourceCitations₂ papers₂).links) := by
  subst h1 h2 h3 h4 h5 h6 h7 h8 h9
  exact ⟨rfl, rfl⟩

/-- Closed witness for `buildGraphData_deterministic` at one concrete
input given twice. -/
theorem buildGraphData_deterministic_witness :
    ((buildGraphData 3 (fun q => q) (fun q => q) 500 450 "s" (some 2020) 7
        [⟨"a", [], none, some 2021, none, 12, none, none⟩]).nodes =
      (buildGraphData 3 (fun q => q) (fun q => q) 500 450 "s" (some 2020) 7
        [⟨"a", [], none, some 2021, none, 12, none, none⟩]).nodes) ∧
    ((buildGraphData 3 (fun q => q) (fun q => q) 500 450 "s" (some 2020) 7
        [⟨"a", [], none, some 2021, none, 12, none, none⟩]).links =
      (buildGraphData 3 (fun q => q) (fun q => q) 500 450 "s" (some 2020) 7
        [⟨"a", [], none, some 2021, none, 12, none, none⟩]).links) :=
  buildGraphData_deterministic 3 3 (fun q => q) (fun q => q) (fun q => q)
    (fun q => q) 500 500 450 450 "s" "s" (some 2020) (some 2020) 7 7
    [⟨"a", [], none, some 2021, none, 12, none, none⟩]
    [⟨"a", [], none, some 2021, none, 12, none, none⟩]
    rfl rfl rfl rfl rfl rfl rfl rfl rfl

/-- C9: for a non-center node with citation count `c ≥ 0` the rendered
size is exactly `MIN_SIZE + (log(c+1)/log(5000)) * (MAX_SIZE − MIN_SIZE)`
with `MIN_SIZE = 4`, `MAX_SIZE = 9`; the center size is fixed at `10`;
and no clamp is applied: whenever `c + 1 > 5000` the size strictly
exceeds `MAX_SIZE = 9`. -/
theorem getNodeSize_spec (c : ℤ) (_hc : 0 ≤ c) :
    getNodeSize c false =
      4 + (Real.log ((c : ℝ) + 1) / Real.log 5000) * (9 - 4) ∧
    getNodeSize c true = 10 ∧
    (5000 < (c : ℝ) + 1 → 9 < getNodeSize c false) := by
  refine ⟨by simp [getNodeSize], by simp [getNodeSize], fun h5 => ?_⟩
  have hlogpos : 0 < Real.log 5000 := Real.log_pos (by norm_num)
  have hlt : Real.log 5000 < Real.log ((c : ℝ) + 1) :=
    Real.log_lt_log (by norm_num) h5
  have hratio : 1 < Real.log ((c : ℝ) + 1) / Real.log 5000 :=
    (one_lt_div hlogpos).mpr hlt
  simp only [getNodeSize, Bool.false_eq_true, if_false]
  nlinarith [hratio]

/-- Closed witness for `getNodeSize_spec` at `c = 5000` (so
`c + 1 = 5001 > 5000`): the size strictly exceeds 9. -/
theorem getNodeSize_spec_witness :
    (0 : ℤ) ≤ 5000 ∧ 9 < getNodeSize 5000 false :=
  ⟨by norm_num,
    (getNodeSize_spec 5000 (by norm_num)).2.2 (by norm_num)⟩

@[simp]
theorem truthyStr_none : truthyStr none = false := by
  simp [truthyStr]

@[simp]
theorem truthyStr_strOrNone (o : Option String) :
    truthyStr (strOrNone o) = truthyStr o := by
  unfold strOrNone
  by_cases h : truthyStr o
  · rw [if_pos h]
  · rw [if_neg h, truthyStr_none]
    exact (Bool.eq_false_iff.mpr h).symm

/-- C6: whenever the connect parameters carry a truthy (non-empty)
`arxiv_id` or a truthy `doi`, the related-papers query contains no
`title` parameter at all; conversely, a `title` parameter is sent only
when both `arxiv_id` and `doi` are absent or empty. -/
theorem handleConnect_title_only_without_ids (params : ConnectParams) :
    ((truthyStr params.arxiv_id = true ∨ truthyStr params.doi = true) →
      "title" ∉ (handleConnectQuery params).map Prod.fst) ∧
    ("title" ∈ (handleConnectQuery params).map Prod.fst →
      truthyStr params.arxiv_id = false ∧ truthyStr params.doi = false) := by
  by_cases ha : truthyStr params.arxiv_id <;>
    by_cases hd : truthyStr params.doi <;>
      simp [handleConnectQuery, getRelatedPapersExternalQuery,
        handleConnectRequest, ha, hd]

/-- Closed witness for `handleConnect_title_only_without_ids`: with a
truthy `arxiv_id` and a title also present, the query omits `title`. -/
theorem handleConnect_title_only_without_ids_witness :
    "title" ∉ (handleConnectQuery
      ⟨some "2506.10347", none, some "Some Title", some 2024, some 3⟩).map
        Prod.fst :=
  (handleConnect_title_only_without_ids
    ⟨some "2506.10347", none, some "Some Title", some 2024, some 3⟩).1
    (Or.inl (by decide))

/-- C7 (cache modelled from the spec): starting from an empty cache, two
`getOrFetch` calls with the same `(key, limit)` inside the TTL window
invoke the fetcher exactly once in total, while a second call with the
same `key` but a different `limit` invokes the fetcher again (once per
distinct limit). -/
theorem getOrFetch_cache_policy
    (fetcher : String → ℕ → List RelatedPaperResult) (key : String)
    (limit limit₂ : ℕ) (now₁ now₂ : ℕ) (_h1 : now₁ ≤ now₂)
    (h2 : now₂ < now₁ + CACHE_TTL) (hL : limit₂ ≠ limit) :
    ((getOrFetch fetcher now₁ key limit []).fetchCount +
      (getOrFetch fetcher now₂ key limit
        (getOrFetch fetcher now₁ key limit []).state).fetchCount = 1) ∧
    ((getOrFetch fetcher now₂ key limit₂
        (getOrFetch fetcher now₁ key limit []).state).fetchCount = 1) := by
  have hfirst : getOrFetch fetcher now₁ key limit [] =
      ⟨fetcher key limit,
        [⟨key, limit, fetcher key limit, now₁ + CACHE_TTL⟩], 1⟩ := rfl
  rw [hfirst]
  constructor
  · have hhit : cacheLookup now₂
        [⟨key, limit, fetcher key limit, now₁ + CACHE_TTL⟩] key limit =
        some (fetcher key limit) := by
      unfold cacheLookup
      simp [List.find?, h2]
    unfold getOrFetch
    rw [hhit]
    rfl
  · have hmiss : cacheLookup now₂
        [⟨key, limit, fetcher key limit, now₁ + CACHE_TTL⟩] key limit₂ =
        none := by
      have hb : (limit == limit₂) = false :=
        beq_eq_false_iff_ne.mpr (Ne.symm hL)
      unfold cacheLookup
      simp [List.find?, hb]
    unfold getOrFetch
    rw [hmiss]

/-- Closed witness for `getOrFetch_cache_policy` at concrete times,
limits and fetcher. -/
theorem getOrFetch_cache_policy_witness :
    (((getOrFetch (fun _ _ => []) 0 "k" 5 []).fetchCount +
      (getOrFetch (fun _ _ => []) 1 "k" 5
        (getOrFetch (fun _ _ => []) 0 "k" 5 []).state).fetchCount = 1) ∧
    ((getOrFetch (fun _ _ => []) 1 "k" 6
        (getOrFetch (fun _ _ => []) 0 "k" 5 []).state).fetchCount = 1)) :=
  getOrFetch_cache_policy (fun _ _ => []) "k" 5 6 0 1 (by norm_num)
    (by norm_num [CACHE_TTL]) (by norm_num)

section RoundTripLemmas

/-- Stripping a pattern from a list that starts with it leaves the rest. -/
theorem stripLead_append (p l : List Char) : stripLead p (p ++ l) = some l := by
  induction p with
  | nil => rfl
  | cons c cs ih => simp [stripLead, ih]

/-- An anchored match right at the `arxiv.org/abs/` pattern captures a
following run of id characters entirely. -/
theorem arxivMatchAt_pat (l : List Char) (hl : ∀ c ∈ l, isIdChar c = true)
    (hne : l ≠ []) : arxivMatchAt (arxivAbsPat ++ l) = some l := by
  have ht : l.takeWhile isIdChar = l := List.takeWhile_eq_self_iff.mpr hl
  have hie : l.isEmpty = false := by
    cases l
    · exact absurd rfl hne
    · rfl
  unfold arxivMatchAt
  rw [stripLead_append]
  simp [ht, hie]

/-- A position whose first character is not `a` cannot start a match of
either branch of the arXiv pattern. -/
theorem arxivMatchAt_not_a {c : Char} {r : List Char} (h : c ≠ 'a') :
    arxivMatchAt (c :: r) = none := by
  have ha : arxivAbsPat = 'a' :: "rxiv.org/abs/".data := rfl
  have hp : arxivPdfPat = 'a' :: "rxiv.org/pdf/".data := rfl
  unfold arxivMatchAt
  rw [ha, hp]
  simp [stripLead, Ne.symm h]

/-- The scan skips a position with no match. -/
theorem arxivScan_cons_none {c : Char} {r : List Char}
    (h : arxivMatchAt (c :: r) = none) : arxivScan (c :: r) = arxivScan r := by
  simp only [arxivScan, h]

/-- The scan stops at the first position with a match. -/
theorem arxivScan_cons_some {c : Char} {r g : List Char}
    (h : arxivMatchAt (c :: r) = some g) : arxivScan (c :: r) = some g := by
  simp only [arxivScan, h]

/-- Scanning `https://arxiv.org/abs/<id>` finds the match at offset 8 and
captures the whole id. -/
theorem arxivScan_abs_url (l : List Char) (hl : ∀ c ∈ l, isIdChar c = true)
    (hne : l ≠ []) :
    arxivScan ("https://arxiv.org/abs/".data ++ l) = some l := by
  have hm : arxivMatchAt ('a' :: ("rxiv.org/abs/".data ++ l)) = some l :=
    arxivMatchAt_pat l hl hne
  show arxivScan
    ('h' :: 't' :: 't' :: 'p' :: 's' :: ':' :: '/' :: '/' ::
      (arxivAbsPat ++ l)) = some l
  rw [arxivScan_cons_none (arxivMatchAt_not_a (by decide)),
    arxivScan_cons_none (arxivMatchAt_not_a (by decide)),
    arxivScan_cons_none (arxivMatchAt_not_a (by decide)),
    arxivScan_cons_none (arxivMatchAt_not_a (by decide)),
    arxivScan_cons_none (arxivMatchAt_not_a (by decide)),
    arxivScan_cons_none (arxivMatchAt_not_a (by decide)),
    arxivScan_cons_none (arxivMatchAt_not_a (by decide)),
    arxivScan_cons_none (arxivMatchAt_not_a (by decide))]
  exact arxivScan_cons_some hm

end RoundTripLemmas

/-- C10: round-trip of identifier extraction — for every non-empty id
made only of digits and dots, `extractArxivId` applied to
`buildPaperUrl` with that `arxiv_id` (and no explicit url) recovers
exactly the id. -/
theorem buildPaperUrl_extractArxivId_roundTrip (id : String)
    (h1 : id ≠ "") (h2 : ∀ c ∈ id.data, isIdChar c = true) :
    extractArxivIdOpt (buildPaperUrl ⟨none, some id, none⟩) = some id := by
  have hne : id.data ≠ [] := fun hd => h1 (congrArg String.mk hd)
  have hta : truthyStr (some id) = true := by
    simp [truthyStr, h1]
  have hb : buildPaperUrl ⟨none, some id, none⟩ =
      some ("https://arxiv.org/abs/" ++ id) := by
    unfold buildPaperUrl
    simp [truthyStr_none, hta, strVal]
  rw [hb]
  show extractArxivId ("https://arxiv.org/abs/" ++ id) = some id
  have hurlne : ("https://arxiv.org/abs/" ++ id) ≠ "" := by
    intro h
    apply hne
    have hd := congrArg String.data h
    rw [String.data_append] at hd
    exact (List.append_eq_nil.mp hd).2
  unfold extractArxivId
  rw [if_neg hurlne, String.data_append,
    arxivScan_abs_url id.data h2 hne]
  rfl

/-- Closed witness for `buildPaperUrl_extractArxivId_roundTrip` at the
concrete id `2301.12345`. -/
theorem buildPaperUrl_extractArxivId_roundTrip_witness :
    ("2301.12345" : String) ≠ "" ∧
    (∀ c ∈ ("2301.12345" : String).data, isIdChar c = true) ∧
    extractArxivIdOpt (buildPaperUrl ⟨none, some "2301.12345", none⟩) =
      some "2301.12345" :=
  ⟨by decide, by decide,
    buildPaperUrl_extractArxivId_roundTrip "2301.12345" (by decide)
      (by decide)⟩

end PaperCuration
